import Mathlib

/-!
Verification development for the RAG document Q&A pipeline scripts
(`step1_read_pdf.py` … `step11_streamlit_enhanced.py`).

The pipeline's own orchestration code (extraction guards, script error
handling, the Streamlit session-state handlers, chat export, vector-store
loading) is embedded shallowly below, translated from the Python sources.
Text is modelled as `List Char` where character-level slicing matters and
as `String` elsewhere.  Library calls that the scripts delegate to
(langchain's text splitter, FAISS similarity search) have no source in the
repository; those components are modelled from the specification, and each
such definition says so in its doc comment.
-/

/-! ## Chunker -/

/-- Modelled from the spec: the scripts delegate chunking to langchain's
`RecursiveCharacterTextSplitter` (`splitter.split_text`,
`text_splitter.split_documents`), whose source is not part of this
repository.  Per the spec's Chunker contract, given `chunk_size` and
`chunk_overlap` with `chunk_overlap < chunk_size` the text is split
deterministically into an ordered sequence of overlapping substrings:
each chunk is a window of at most `size` characters, and consecutive
windows overlap on `overlap` characters.  Invalid configurations
(`overlap ≥ size`) and texts that already fit in one chunk produce a
single chunk. -/
def split_text (size overlap : Nat) (cs : List Char) : List (List Char) :=
  if _h : size ≤ overlap ∨ cs.length ≤ size then [cs]
  else cs.take size :: split_text size overlap (cs.drop (size - overlap))
termination_by cs.length
decreasing_by
  simp only [List.length_drop]
  omega

/-- Concatenation of all chunks after the first, each with its
`overlap`-character overlapping front part removed. -/
def dropJoin (overlap : Nat) : List (List Char) → List Char
  | [] => []
  | c :: rest => c.drop overlap ++ dropJoin overlap rest

/-- Concatenate an ordered chunk sequence, removing from every chunk but
the first the `overlap` characters it shares with its predecessor. -/
def joinChunks (overlap : Nat) : List (List Char) → List Char
  | [] => []
  | c :: rest => c ++ dropJoin overlap rest

/-! ## Text extractor (`step10_process_all_content.py`, `extract_text_with_pages`) -/

/-- Truthiness of Python's `text.strip()`: true iff the string contains a
non-whitespace character.  (`String.trim` itself does not reduce well in
the kernel, so the guard `if text.strip():` is embedded this way.) -/
def stripNonempty (s : String) : Bool :=
  s.data.any (fun c => !c.isWhitespace)

/-- One extracted content record, as built by `extract_text_with_pages`:
`{'content': text, 'page': page_num, 'type': 'text'}`. -/
structure ContentItem where
  content : String
  page : Nat
  type : String
deriving DecidableEq, Repr

/-- The loop body of `extract_text_with_pages`: `enumerate(reader.pages, 1)`
with the `if text.strip():` filter.  The counter advances on every page,
kept or skipped. -/
def extractTextAux : Nat → List String → List ContentItem
  | _, [] => []
  | n, t :: rest =>
    if stripNonempty t then ⟨t, n, "text"⟩ :: extractTextAux (n + 1) rest
    else extractTextAux (n + 1) rest

/-- `extract_text_with_pages` from `step10_process_all_content.py`: one
item per page whose text survives `strip()`, pages numbered from 1. -/
def extract_text_with_pages (pages : List String) : List ContentItem :=
  extractTextAux 1 pages

/-! ## Retriever -/

/-- Modelled from the spec: `vectorstore.similarity_search(question, k)`
is FAISS library code, not part of this repository.  Per the spec's
Retriever contract it returns the `k` index entries of greatest embedding
similarity to the query, in decreasing score order; `sim` abstracts the
similarity score of an entry against the fixed query. -/
def similarity_search {α : Type} (sim : α → ℚ) (k : Nat) (index : List α) : List α :=
  (index.mergeSort (fun a b => sim b ≤ sim a)).take k

/-! ## Ingestion script runs (`step4_create_embeddings.py`, `step5b_qa_with_groq.py`) -/

/-- Observable outcome of one run of `step4_create_embeddings.py`. -/
structure Run4 where
  exitCode : Option Nat
  errMsgs : List String
  chunks : Option (List (List Char))
  indexBuilt : Bool
  indexSaved : Bool
deriving Repr

/-- `step4_create_embeddings.py`: `file` is the content of
`extracted_text.txt` if it exists (`FileNotFoundError` otherwise); the
Booleans stand for the success of the embedding-model load, the FAISS
build and the save, each of whose failure prints and calls `exit(1)`.
(The interpolated exception text in the later error prints is elided.) -/
def step4_run (file : Option String) (embedOk faissOk saveOk : Bool) : Run4 :=
  match file with
  | none =>
    ⟨some 1, ["❌ Error: extracted_text.txt not found!", "   Run step2_extract_all.py first!"],
      none, false, false⟩
  | some content =>
    let texts := split_text 1000 200 content.data
    if embedOk = false then
      ⟨some 1, ["❌ Error loading model", "💡 Run: pip install sentence-transformers"],
        some texts, false, false⟩
    else if faissOk = false then
      ⟨some 1, ["❌ Error", "💡 Run: pip install faiss-cpu"], some texts, false, false⟩
    else if saveOk = false then
      ⟨some 1, ["❌ Error saving"], some texts, true, false⟩
    else ⟨none, [], some texts, true, true⟩

/-- Python `s.strip()` on character lists: whitespace removed from both ends. -/
def stripStr (s : String) : String :=
  String.mk (((s.data.dropWhile Char.isWhitespace).reverse.dropWhile Char.isWhitespace).reverse)

/-- Python `s.lower()`. -/
def lowerStr (s : String) : String :=
  String.mk (s.data.map Char.toLower)

/-- The loop exit test of `step5b_qa_with_groq.py`:
`question.lower() in ['quit', 'exit', 'q']`. -/
def isQuit (q : String) : Bool :=
  lowerStr q == "quit" || lowerStr q == "exit" || lowerStr q == "q"

/-- How many questions of the interactive loop of
`step5b_qa_with_groq.py` reach `chain.invoke`: stop at the first
quit word, skip empty (stripped) lines, count the rest. -/
def countAsks : List String → Nat
  | [] => 0
  | q :: rest =>
    let t := stripStr q
    if isQuit t then 0
    else if t == "" then countAsks rest
    else countAsks rest + 1

/-- Observable outcome of one run of `step5b_qa_with_groq.py`. -/
structure Run5b where
  exitCode : Option Nat
  msgs : List String
  dbLoaded : Bool
  llmCalls : Nat
deriving Repr

/-- `step5b_qa_with_groq.py`: `apiKey` is `os.getenv("GROQ_API_KEY")`;
without it the script prints and calls `exit(1)` before loading the
vector database or contacting the LLM; with it the interactive loop
issues one generation call per accepted question. -/
def step5b_run (apiKey : Option String) (questions : List String) : Run5b :=
  match apiKey with
  | none =>
    ⟨some 1, ["❌ No API key found in .env file!", "Add this line to your .env file:",
      "GROQ_API_KEY=your_key_here"], false, 0⟩
  | some _ => ⟨none, [], true, countAsks questions⟩

/-! ## Shared chat-UI data model -/

/-- Message role in `st.session_state.messages`. -/
inductive Role where
  | user
  | assistant
deriving DecidableEq, Repr

/-- Rendering of a role in the chat export: `"You" if msg["role"] == "user"
else "Assistant"`. -/
def roleName : Role → String
  | Role.user => "You"
  | Role.assistant => "Assistant"

/-- What a sidebar/main render pass showed and did: `st.info` texts,
`st.warning` texts, and whether `chain.invoke` (the hosted generation
call) was issued. -/
structure UIOut where
  infos : List String
  warnings : List String
  llmCalled : Bool
deriving DecidableEq, Repr

/-! ## Basic app (`step8_streamlit_app.py`) -/

/-- A retrieved langchain document as used by the basic app (only
`page_content` is consulted). -/
structure Doc8 where
  page_content : String
deriving DecidableEq, Repr

/-- One entry of `st.session_state.messages` in the basic app; the
`sources` key is present only on assistant turns. -/
structure Msg8 where
  role : Role
  content : String
  sources : Option (List String)
deriving DecidableEq, Repr

/-- The QA chain: `chain.invoke(question)`; an `Except.error` is a raised
exception (timeout, network, auth, rate limit). -/
abbrev ChainF := String → Except String String

/-- The retriever call of the basic app: `retriever.invoke(question)`. -/
abbrev Retr8F := String → Except String (List Doc8)

/-- Session state of `step8_streamlit_app.py` plus the persisted
`faiss_index` directory (`fsIndex`), which the button handlers never
write. -/
structure App8 where
  messages : List Msg8
  chain : Option ChainF
  retriever : Option Retr8F
  qa_system_loaded : Bool
  fsIndex : Option (List String)

/-- `get_answer` from `step8_streamlit_app.py`: the whole
invoke-chain-then-invoke-retriever block is wrapped in one `try`, whose
`except` returns `(f"Error: {str(e)}", [])`. -/
def get_answer (chain : ChainF) (retriever : Retr8F) (question : String) :
    String × List Doc8 :=
  match chain question with
  | Except.error e => ("Error: " ++ e, [])
  | Except.ok answer =>
    match retriever question with
    | Except.error e => ("Error: " ++ e, [])
    | Except.ok docs => (answer, docs)

/-- The `st.chat_input` branch of the basic app: append the user turn,
call `get_answer`, append the assistant turn with
`"sources": [doc.page_content for doc in sources]`. -/
def submit8 (c : ChainF) (r : Retr8F) (s : App8) (q : String) : App8 :=
  let ar := get_answer c r q
  { s with messages := s.messages ++
      [⟨Role.user, q, none⟩, ⟨Role.assistant, ar.1, some (ar.2.map Doc8.page_content)⟩] }

/-- The `🗑️ Clear Chat` button of the basic app:
`st.session_state.messages = []`. -/
def clearChat8 (s : App8) : App8 :=
  { s with messages := [] }

/-- The `🔄 Load Q&A System` button of the basic app: on success of
`load_qa_system()` store the chain and retriever and set
`qa_system_loaded`; it does not touch the message history. -/
def loadQA8 (s : App8) (res : Option (ChainF × Retr8F)) : App8 :=
  match res with
  | some cr => { s with chain := some cr.1, retriever := some cr.2, qa_system_loaded := true }
  | none => s

/-- A sidebar sample-question button of the basic app: unconditionally
appends the question as a user turn and reruns; it never calls the LLM. -/
def sampleClick8 (s : App8) (q : String) : App8 × UIOut :=
  ({ s with messages := s.messages ++ [⟨Role.user, q, none⟩] }, ⟨[], [], false⟩)

/-- The main chat area of the basic app: with no system loaded it only
shows the load prompt; otherwise an entered question goes through
`get_answer` (an LLM invocation).  The loaded-without-chain branch is
unreachable in the app (the flag is only set together with the chain). -/
def mainView8 (s : App8) (question : Option String) : App8 × UIOut :=
  if s.qa_system_loaded = false then
    (s, ⟨["👈 Click **Load Q&A System** in the sidebar to start!"], [], false⟩)
  else
    match question with
    | none => (s, ⟨[], [], false⟩)
    | some q =>
      match s.chain, s.retriever with
      | some c, some r => (submit8 c r s q, ⟨[], [], true⟩)
      | _, _ => (s, ⟨[], [], false⟩)

/-! ## Enhanced app (`step11_streamlit_enhanced.py`) -/

/-- A retrieved langchain document in the enhanced app: `page_content`
plus the metadata keys the app reads (`page`, `type`). -/
structure Doc11 where
  page_content : String
  mpage : Option Nat
  mtype : Option String
deriving DecidableEq, Repr

/-- A stored source citation: `{'page': doc.metadata.get('page','Unknown'),
'type': doc.metadata.get('type','text'), 'content': doc.page_content}`
(the page value rendered to text, as the export prints it). -/
structure SourceCite where
  page : String
  type : String
  content : String
deriving DecidableEq, Repr

/-- Build one stored citation from a retrieved document. -/
def mkSource (d : Doc11) : SourceCite :=
  { page := match d.mpage with
      | some n => toString n
      | none => "Unknown"
    type := d.mtype.getD "text"
    content := d.page_content }

/-- One entry of `st.session_state.messages` in the enhanced app. -/
structure Msg11 where
  role : Role
  content : String
  sources : Option (List SourceCite)
deriving DecidableEq, Repr

/-- The retriever call of the enhanced app. -/
abbrev Retr11F := String → Except String (List Doc11)

/-- The persisted vector store, abstracted to its chunk payload. -/
structure VStore where
  chunks : List String
deriving DecidableEq, Repr

/-- `create_qa_chain(vectorstore)`: returns the chain and retriever, or
`None` when the API key is missing or construction raises. -/
abbrev QaSetup := VStore → Option (ChainF × Retr11F)

/-- Session state of `step11_streamlit_enhanced.py` plus the two
persisted index directories (`faiss_index_enhanced`, `faiss_index`). -/
structure App11 where
  messages : List Msg11
  chain : Option ChainF
  retriever : Option Retr11F
  qa_system_loaded : Bool
  uploaded_file_name : Option String
  fsEnhanced : Bool
  fsBasic : Bool

/-- `get_answer_with_sources` from `step11_streamlit_enhanced.py`: same
one-`try` degrade-to-message policy as the basic app's `get_answer`. -/
def get_answer_with_sources (chain : ChainF) (retriever : Retr11F) (question : String) :
    String × List Doc11 :=
  match chain question with
  | Except.error e => ("Error: " ++ e, [])
  | Except.ok answer =>
    match retriever question with
    | Except.error e => ("Error: " ++ e, [])
    | Except.ok docs => (answer, docs)

/-- The `st.chat_input` branch of the enhanced app: append the user turn,
call `get_answer_with_sources`, append the assistant turn with the built
source-citation list. -/
def submit11 (c : ChainF) (r : Retr11F) (s : App11) (q : String) : App11 :=
  let ar := get_answer_with_sources c r q
  { s with messages := s.messages ++
      [⟨Role.user, q, none⟩, ⟨Role.assistant, ar.1, some (ar.2.map mkSource)⟩] }

/-- The `🗑️ Clear Chat` button of the enhanced app. -/
def clearChat11 (s : App11) : App11 :=
  { s with messages := [] }

/-- The `🔄 Process Uploaded PDF` button: on success of
`process_uploaded_pdf` and `create_qa_chain`, replace chain and
retriever, set the loaded flag and file name, and clear the history
(`st.session_state.messages = []`). -/
def processUploaded11 (s : App11) (res : Option (VStore × Nat)) (qa : QaSetup)
    (fname : String) : App11 :=
  match res with
  | none => s
  | some vn =>
    match qa vn.1 with
    | none => s
    | some cr =>
      { s with
        chain := some cr.1
        retriever := some cr.2
        qa_system_loaded := true
        uploaded_file_name := some fname
        messages := [] }

/-- `load_existing_vectorstore` from `step11_streamlit_enhanced.py`:
prefer `faiss_index_enhanced`, fall back to `faiss_index`, return
`(None, None)` when neither directory exists or loading raises
(`loadLocal` abstracts `FAISS.load_local` on a directory name). -/
def load_existing_vectorstore (enhancedExists basicExists : Bool)
    (loadLocal : String → Except String VStore) : Option VStore × Option String :=
  if enhancedExists then
    match loadLocal "faiss_index_enhanced" with
    | Except.ok vs => (some vs, some "enhanced")
    | Except.error _ => (none, none)
  else if basicExists then
    match loadLocal "faiss_index" with
    | Except.ok vs => (some vs, some "basic")
    | Except.error _ => (none, none)
  else (none, none)

/-- The `🔄 Load Existing Document` button: on success of
`load_existing_vectorstore` and `create_qa_chain`, replace chain and
retriever and set the loaded flag and file name; the message history is
left as it is. -/
def loadExisting11 (s : App11) (loadLocal : String → Except String VStore)
    (qa : QaSetup) : App11 :=
  match load_existing_vectorstore s.fsEnhanced s.fsBasic loadLocal with
  | (some vs, db) =>
    match qa vs with
    | some cr =>
      { s with
        chain := some cr.1
        retriever := some cr.2
        qa_system_loaded := true
        uploaded_file_name := some ("Existing (" ++ db.getD "" ++ ")") }
    | none => s
  | (none, _) => s

/-- A sidebar sample-question button of the enhanced app: guarded by
`qa_system_loaded`; when nothing is loaded it only warns. -/
def sampleClick11 (s : App11) (q : String) : App11 × UIOut :=
  if s.qa_system_loaded then
    ({ s with messages := s.messages ++ [⟨Role.user, q, none⟩] }, ⟨[], [], false⟩)
  else
    (s, ⟨[], ["⚠️ Please load a document first!"], false⟩)

/-- The main chat area of the enhanced app: with no system loaded it only
shows the load prompt; otherwise an entered question goes through
`get_answer_with_sources` (an LLM invocation). -/
def mainView11 (s : App11) (question : Option String) : App11 × UIOut :=
  if s.qa_system_loaded = false then
    (s, ⟨["👈 Upload a PDF or load the existing document from the sidebar to start!"], [], false⟩)
  else
    match question with
    | none => (s, ⟨[], [], false⟩)
    | some q =>
      match s.chain, s.retriever with
      | some c, some r => (submit11 c r s q, ⟨[], [], true⟩)
      | _, _ => (s, ⟨[], [], false⟩)

/-! ## Chat export (`export_chat_history`) -/

/-- Python `ch * n` for a one-character string, as in `"="*80`. -/
def repChar (c : Char) (n : Nat) : String :=
  String.mk (List.replicate n c)

/-- The export preamble: timestamp line, document line (with the
`or 'Default Document'` fallback for a missing or empty name), and the
`"="*80` rule. -/
def exportHeader (now : String) (docName : Option String) : String :=
  "Chat History - " ++ now ++ "\n" ++ "Document: " ++
    (match docName with
      | some n => if n == "" then "Default Document" else n
      | none => "Default Document") ++ "\n" ++ repChar '=' 80 ++ "\n\n"

/-- The `for i, source in enumerate(msg["sources"], 1)` loop of
`export_chat_history`, started at counter `i`. -/
def sourceLinesFrom (i : Nat) : List SourceCite → String
  | [] => ""
  | s :: rest =>
    "  [" ++ toString i ++ "] Page " ++ s.page ++ " (" ++ s.type ++ ")\n" ++
      sourceLinesFrom (i + 1) rest

/-- One message block of `export_chat_history`: the role line, the
sources block for assistant turns that carry a `sources` key, and the
`"-"*80` separator. -/
def renderMsg11 (m : Msg11) : String :=
  roleName m.role ++ ": " ++ m.content ++ "\n\n" ++
    (match m.role, m.sources with
      | Role.assistant, some srcs => "Sources:\n" ++ sourceLinesFrom 1 srcs ++ "\n"
      | _, _ => "") ++
    repChar '-' 80 ++ "\n\n"

/-- `export_chat_history` from `step11_streamlit_enhanced.py`: `None` for
an empty history, otherwise the header followed by one block per message,
accumulated in order by `+=`. -/
def export_chat_history (now : String) (docName : Option String)
    (msgs : List Msg11) : Option String :=
  if msgs.isEmpty then none
  else some (msgs.foldl (fun acc m => acc ++ renderMsg11 m) (exportHeader now docName))

/-! ## Claim-side renderings (stated from the specified behaviour, for
comparison with the code-side definitions above) -/

/-- Plain concatenation of a list of strings. -/
def strJoin : List String → String
  | [] => ""
  | s :: rest => s ++ strJoin rest

/-- One numbered source-citation line, carrying the entry's number, page
and type. -/
def citeLine (i : Nat) (s : SourceCite) : String :=
  "  [" ++ toString i ++ "] Page " ++ s.page ++ " (" ++ s.type ++ ")\n"

/-- The transcript block a message must contribute, stated from the
specified export behaviour: the rendered role with the message content,
then for an assistant message carrying sources a citation list numbered
consecutively from 1 with each entry's page and type. -/
def transcriptEntry (m : Msg11) : String :=
  roleName m.role ++ ": " ++ m.content ++ "\n\n" ++
    (match m.role, m.sources with
      | Role.assistant, some srcs =>
        "Sources:\n" ++ strJoin (((srcs.enumFrom 1).map (fun p => citeLine p.1 p.2))) ++ "\n"
      | _, _ => "") ++
    repChar '-' 80 ++ "\n\n"

/-! ## Concrete fixtures used by the closed instance theorems -/

/-- A chain whose hosted generation call raises a timeout. -/
def chainTimeout : ChainF := fun _ => Except.error "timeout"

/-- A retriever for the basic app that returns no documents. -/
def retr8Empty : Retr8F := fun _ => Except.ok []

/-- A retriever for the enhanced app that returns no documents. -/
def retr11Empty : Retr11F := fun _ => Except.ok []

/-- Fresh basic-app session. -/
def app8Start : App8 := ⟨[], none, none, false, none⟩

/-- Fresh enhanced-app session. -/
def app11Start : App11 := ⟨[], none, none, false, none, false, false⟩

/-- Enhanced-app session with one chat turn already recorded and only the
basic persisted index on disk. -/
def app11Chat : App11 :=
  ⟨[⟨Role.user, "hi", none⟩], none, none, false, none, false, true⟩

/-- A one-chunk persisted store. -/
def vsDemo : VStore := ⟨["chunk one"]⟩

/-- A chain whose generation call always answers. -/
def chainOkAnswer : ChainF := fun _ => Except.ok "answer"

/-- A `create_qa_chain` that always succeeds. -/
def qaDemo : QaSetup := fun _ => some (chainOkAnswer, retr11Empty)

/-- A `FAISS.load_local` that succeeds on every directory. -/
def loadAnyOk : String → Except String VStore := fun _ => Except.ok vsDemo

/-! ## Helper lemmas -/

/-- Under a valid configuration `split_text` always puts the first `size`
characters (or the whole text, if shorter) in its first chunk. -/
theorem split_text_cons (size overlap : Nat) (h : overlap < size) (cs : List Char) :
    ∃ t, split_text size overlap cs = cs.take size :: t := by
  rw [split_text]
  split
  · rename_i hc
    rcases hc with hc | hc
    · omega
    · exact ⟨[], by rw [List.take_of_length_le hc]⟩
  · exact ⟨_, rfl⟩

/-- Round trip of the chunking transform: rejoining the chunks while
removing each later chunk's overlapping front part recovers the text. -/
theorem splitJoin_eq (size overlap : Nat) (h : overlap < size) (cs : List Char) :
    joinChunks overlap (split_text size overlap cs) = cs := by
  by_cases hc : cs.length ≤ size
  · rw [split_text, dif_pos (Or.inr hc)]
    simp [joinChunks, dropJoin]
  · have hcond : ¬(size ≤ overlap ∨ cs.length ≤ size) := by omega
    rw [split_text, dif_neg hcond]
    have ih := splitJoin_eq size overlap h (cs.drop (size - overlap))
    set d := cs.drop (size - overlap) with hd
    obtain ⟨t, ht⟩ := split_text_cons size overlap h d
    rw [ht] at ih ⊢
    simp only [joinChunks, dropJoin]
    simp only [joinChunks] at ih
    have hA : cs.take size = cs.take (size - overlap) ++ d.take overlap := by
      rw [hd, ← List.take_add]
      congr 1
      omega
    have hB : (d.take size).drop overlap = (d.drop overlap).take (size - overlap) := by
      rw [List.drop_take]
    have hDsplit : d.take overlap ++ (d.drop overlap).take (size - overlap) = d.take size := by
      rw [← List.take_add]
      congr 1
      omega
    calc cs.take size ++ ((d.take size).drop overlap ++ dropJoin overlap t)
        = cs.take (size - overlap) ++ d.take overlap ++
            ((d.drop overlap).take (size - overlap) ++ dropJoin overlap t) := by
          rw [hA, hB]
      _ = cs.take (size - overlap) ++
            ((d.take overlap ++ (d.drop overlap).take (size - overlap)) ++ dropJoin overlap t) := by
          simp [List.append_assoc]
      _ = cs.take (size - overlap) ++ (d.take size ++ dropJoin overlap t) := by rw [hDsplit]
      _ = cs.take (size - overlap) ++ d := by rw [ih]
      _ = cs := by rw [hd, List.take_append_drop]
termination_by cs.length
decreasing_by
  simp only [List.length_drop]
  omega

/-- Every chunk respects the configured maximum length. -/
theorem chunkLen_le (size overlap : Nat) (h : overlap < size) (cs : List Char) :
    ∀ c ∈ split_text size overlap cs, c.length ≤ size := by
  by_cases hc : cs.length ≤ size
  · rw [split_text, dif_pos (Or.inr hc)]
    simpa using hc
  · have hcond : ¬(size ≤ overlap ∨ cs.length ≤ size) := by omega
    rw [split_text, dif_neg hcond]
    intro c hmem
    rcases List.mem_cons.mp hmem with rfl | hmem'
    · simp [List.length_take]
    · exact chunkLen_le size overlap h (cs.drop (size - overlap)) c hmem'
termination_by cs.length
decreasing_by
  simp only [List.length_drop]
  omega

/-- Each chunk's final `overlap` characters recur as the next chunk's
first `overlap` characters. -/
theorem chunkOverlap_chain (size overlap : Nat) (h : overlap < size) (cs : List Char) :
    List.Chain' (fun a b => a.drop (a.length - overlap) = b.take overlap)
      (split_text size overlap cs) := by
  by_cases hc : cs.length ≤ size
  · rw [split_text, dif_pos (Or.inr hc)]
    exact List.chain'_singleton cs
  · have hcond : ¬(size ≤ overlap ∨ cs.length ≤ size) := by omega
    rw [split_text, dif_neg hcond]
    set d := cs.drop (size - overlap) with hd
    rw [List.chain'_cons']
    refine ⟨?_, chunkOverlap_chain size overlap h d⟩
    intro y hy
    obtain ⟨t, ht⟩ := split_text_cons size overlap h d
    rw [ht] at hy
    simp only [List.head?_cons, Option.mem_def, Option.some.injEq] at hy
    subst hy
    have hlen : (cs.take size).length = size := by
      rw [List.length_take]
      omega
    rw [hlen, List.drop_take, List.take_take]
    rw [hd]
    congr 1
    omega
termination_by cs.length
decreasing_by
  simp only [List.length_drop]
  omega

/-- The extraction loop equals a filter of the 1-based page enumeration. -/
theorem extractTextAux_eq (n : Nat) (pages : List String) :
    extractTextAux n pages =
      ((pages.enumFrom n).filter (fun p => stripNonempty p.2)).map
        (fun p => ⟨p.2, p.1, "text"⟩) := by
  induction pages generalizing n with
  | nil => rfl
  | cons t rest ih =>
    simp only [extractTextAux, List.enumFrom_cons, List.filter_cons]
    by_cases hstrip : stripNonempty t
    · simp [hstrip, ih]
    · simp [hstrip, ih]

/-- Accumulating string appends in a fold equals the joined rendering. -/
theorem foldl_append_eq (f : α → String) (l : List α) (init : String) :
    l.foldl (fun acc m => acc ++ f m) init = init ++ strJoin (l.map f) := by
  induction l generalizing init with
  | nil => simp [strJoin]
  | cons x xs ih =>
    simp only [List.foldl_cons, List.map_cons, strJoin, ih, String.append_assoc]

/-- The export's counting loop produces exactly the enumerated citation
lines, numbered consecutively from its starting index. -/
theorem sourceLines_eq (srcs : List SourceCite) :
    ∀ i, sourceLinesFrom i srcs =
      strJoin ((srcs.enumFrom i).map (fun p => citeLine p.1 p.2)) := by
  induction srcs with
  | nil => intro i; rfl
  | cons s rest ih =>
    intro i
    simp only [sourceLinesFrom, List.enumFrom_cons, List.map_cons, strJoin, citeLine, ih]

/-- The code-side message block coincides with the specified transcript
block. -/
theorem renderMsg11_eq : renderMsg11 = transcriptEntry := by
  funext m
  rcases m with ⟨r, c, srcs⟩
  cases r <;> cases srcs <;> simp [renderMsg11, transcriptEntry, sourceLines_eq]

/-! ## Claims -/

/-- Claim C1: for every input text and every chunking configuration with
`chunk_overlap < chunk_size`, concatenating the ordered chunk sequence
with each consecutive chunk's overlapping front part removed reconstructs
the original input text exactly. -/
theorem claim_C1 (size overlap : Nat) (text : List Char) (h : overlap < size) :
    joinChunks overlap (split_text size overlap text) = text :=
  splitJoin_eq size overlap h text

/-- Instance of claim C1 at the scripts' configuration
(`chunk_size=1000`, `chunk_overlap=200`) on a concrete text. -/
theorem claim_C1_witness :
    200 < 1000 ∧
    joinChunks 200 (split_text 1000 200 "hello world".data) = "hello world".data :=
  ⟨by decide, claim_C1 1000 200 "hello world".data (by decide)⟩

/-- Claim C2: every chunk produced by the chunking transform is at most
`chunk_size` characters long, and consecutive chunks share exactly
`chunk_overlap` characters: the final `overlap` characters of the earlier
chunk are the first `overlap` characters of the later one. -/
theorem claim_C2 (size overlap : Nat) (text : List Char) (h : overlap < size) :
    (∀ c ∈ split_text size overlap text, c.length ≤ size) ∧
    List.Chain' (fun a b => a.drop (a.length - overlap) = b.take overlap)
      (split_text size overlap text) :=
  ⟨chunkLen_le size overlap h text, chunkOverlap_chain size overlap h text⟩

/-- Instance of claim C2 on a concrete text and configuration. -/
theorem claim_C2_witness :
    1 < 3 ∧
    ((∀ c ∈ split_text 3 1 "abcde".data, c.length ≤ 3) ∧
      List.Chain' (fun a b => a.drop (a.length - 1) = b.take 1)
        (split_text 3 1 "abcde".data)) :=
  ⟨by decide, claim_C2 3 1 "abcde".data (by decide)⟩

/-- Claim C3: the text extractor yields exactly one `ContentItem` per page
whose extracted text is non-empty after stripping whitespace, tagged with
the 1-based page number and type `text` and carrying the page's (hence
non-empty) text; whitespace-only pages yield no item. -/
theorem claim_C3 (pages : List String) :
    extract_text_with_pages pages =
      ((pages.enumFrom 1).filter (fun p => stripNonempty p.2)).map
        (fun p => ⟨p.2, p.1, "text"⟩) ∧
    ∀ ci ∈ extract_text_with_pages pages,
      stripNonempty ci.content = true ∧ ci.content ≠ "" := by
  refine ⟨extractTextAux_eq 1 pages, ?_⟩
  intro ci hci
  rw [extract_text_with_pages, extractTextAux_eq 1 pages] at hci
  obtain ⟨p, hp, rfl⟩ := List.mem_map.mp hci
  have hstrip : stripNonempty p.2 = true := (List.mem_filter.mp hp).2
  refine ⟨hstrip, ?_⟩
  intro hemp
  have : p.2 = "" := hemp
  rw [this] at hstrip
  exact absurd hstrip (by decide)

/-- Instance of claim C3 on a concrete page list with a whitespace-only
page and an empty page. -/
theorem claim_C3_witness :
    extract_text_with_pages ["hello", "   ", "", "world"] =
      [⟨"hello", 1, "text"⟩, ⟨"world", 4, "text"⟩] := by
  rw [(claim_C3 ["hello", "   ", "", "world"]).1]
  decide

/-- Claim C4: for every query scoring and every `k`, the retriever
returns exactly `min k (index size)` entries in order of decreasing
similarity score, and an empty index yields the empty sequence rather
than a failure. -/
theorem claim_C4 (α : Type) (sim : α → ℚ) (k : Nat) (index : List α) :
    (similarity_search sim k index).length = min k index.length ∧
    List.Pairwise (fun a b => sim b ≤ sim a) (similarity_search sim k index) ∧
    (index = [] → similarity_search sim k index = []) := by
  refine ⟨?_, ?_, ?_⟩
  · simp [similarity_search, List.length_take, List.length_mergeSort]
  · have hs := @List.sorted_mergeSort α (fun a b => decide (sim b ≤ sim a))
      (fun a b c hab hbc => by
        simp only [decide_eq_true_eq] at *
        exact le_trans hbc hab)
      (fun a b => by
        simp only [Bool.or_eq_true, decide_eq_true_eq]
        exact le_total (sim b) (sim a))
      index
    have hp := List.Pairwise.sublist (List.take_sublist k _) hs
    exact hp.imp (fun hab => by simpa using hab)
  · rintro rfl
    simp [similarity_search]

/-- Instance of claim C4 on a concrete three-entry index scored by
length, with `k = 2`. -/
theorem claim_C4_witness :
    (similarity_search (fun s : String => (s.length : ℚ)) 2 ["aa", "b", "ccc"]).length =
      min 2 (["aa", "b", "ccc"] : List String).length ∧
    List.Pairwise (fun a b : String => (b.length : ℚ) ≤ (a.length : ℚ))
      (similarity_search (fun s : String => (s.length : ℚ)) 2 ["aa", "b", "ccc"]) ∧
    ((["aa", "b", "ccc"] : List String) = [] →
      similarity_search (fun s : String => (s.length : ℚ)) 2 ["aa", "b", "ccc"] = []) :=
  claim_C4 String (fun s => (s.length : ℚ)) 2 ["aa", "b", "ccc"]

/-- Claim C5: if the hosted generation call raises, both apps' answer
operations return a formatted error string with an empty sources list
instead of propagating the exception, and the submitted turn is still
appended to the chat history with that error string as the assistant
content and an empty sources list. -/
theorem claim_C5 (c : ChainF) (r8 : Retr8F) (r11 : Retr11F) (s8 : App8) (s11 : App11)
    (q e : String) (hc : c q = Except.error e) :
    get_answer c r8 q = ("Error: " ++ e, []) ∧
    (submit8 c r8 s8 q).messages =
      s8.messages ++ [⟨Role.user, q, none⟩, ⟨Role.assistant, "Error: " ++ e, some []⟩] ∧
    get_answer_with_sources c r11 q = ("Error: " ++ e, []) ∧
    (submit11 c r11 s11 q).messages =
      s11.messages ++ [⟨Role.user, q, none⟩, ⟨Role.assistant, "Error: " ++ e, some []⟩] := by
  have h8 : get_answer c r8 q = ("Error: " ++ e, []) := by
    unfold get_answer
    rw [hc]
  have h11 : get_answer_with_sources c r11 q = ("Error: " ++ e, []) := by
    unfold get_answer_with_sources
    rw [hc]
  refine ⟨h8, ?_, h11, ?_⟩
  · simp [submit8, h8]
  · simp [submit11, h11]

/-- Instance of claim C5: a timing-out generation service on a fresh
session in each app. -/
theorem claim_C5_witness :
    chainTimeout "What is this about?" = Except.error "timeout" ∧
    (get_answer chainTimeout retr8Empty "What is this about?" = ("Error: " ++ "timeout", []) ∧
      (submit8 chainTimeout retr8Empty app8Start "What is this about?").messages =
        app8Start.messages ++
          [⟨Role.user, "What is this about?", none⟩,
            ⟨Role.assistant, "Error: " ++ "timeout", some []⟩] ∧
      get_answer_with_sources chainTimeout retr11Empty "What is this about?" =
        ("Error: " ++ "timeout", []) ∧
      (submit11 chainTimeout retr11Empty app11Start "What is this about?").messages =
        app11Start.messages ++
          [⟨Role.user, "What is this about?", none⟩,
            ⟨Role.assistant, "Error: " ++ "timeout", some []⟩]) :=
  ⟨rfl, claim_C5 chainTimeout retr8Empty retr11Empty app8Start app11Start
    "What is this about?" "timeout" rfl⟩

/-- Counterexample to claim C6 as stated: a successful
`🔄 Load Existing Document` action in the enhanced app (basic index on
disk, chain construction succeeding) replaces the chain and retriever and
sets the loaded flag, yet the previously recorded chat history is NOT
cleared — refuting "every document (re)load action that succeeds …
clears the message history". -/
theorem claim_C6_counterexample :
    (loadExisting11 app11Chat loadAnyOk qaDemo).qa_system_loaded = true ∧
    (loadExisting11 app11Chat loadAnyOk qaDemo).chain = some chainOkAnswer ∧
    (loadExisting11 app11Chat loadAnyOk qaDemo).messages ≠ [] := by
  refine ⟨rfl, rfl, ?_⟩
  decide

/-- Claim C6, amended: "Clear chat" empties the message history and
leaves every other part of the state (chain, retriever, loaded flag,
file name, persisted index directories) unchanged, in both apps; a
successful "Process Uploaded PDF" action replaces chain and retriever
and clears the history; but the other two load actions — the basic app's
"Load Q&A System" and the enhanced app's "Load Existing Document" —
replace chain and retriever while leaving the message history unchanged. -/
theorem claim_C6 (s8 : App8) (s11 : App11) (vs : VStore) (n : Nat) (fname db : String)
    (c8 : ChainF) (r8 : Retr8F) (c11 : ChainF) (r11 : Retr11F) (qa : QaSetup)
    (loadLocal : String → Except String VStore)
    (hqa : qa vs = some (c11, r11))
    (hload : load_existing_vectorstore s11.fsEnhanced s11.fsBasic loadLocal =
      (some vs, some db)) :
    clearChat8 s8 = { s8 with messages := [] } ∧
    clearChat11 s11 = { s11 with messages := [] } ∧
    processUploaded11 s11 (some (vs, n)) qa fname =
      { s11 with
        chain := some c11
        retriever := some r11
        qa_system_loaded := true
        uploaded_file_name := some fname
        messages := [] } ∧
    loadExisting11 s11 loadLocal qa =
      { s11 with
        chain := some c11
        retriever := some r11
        qa_system_loaded := true
        uploaded_file_name := some ("Existing (" ++ db ++ ")") } ∧
    loadQA8 s8 (some (c8, r8)) =
      { s8 with chain := some c8, retriever := some r8, qa_system_loaded := true } := by
  refine ⟨rfl, rfl, ?_, ?_, rfl⟩
  · simp [processUploaded11, hqa]
  · simp [loadExisting11, hload, hqa]

/-- Instance of the amended claim C6: concrete session states, a
successful chain construction, and the basic index present on disk. -/
theorem claim_C6_witness :
    qaDemo vsDemo = some (chainOkAnswer, retr11Empty) ∧
    load_existing_vectorstore app11Chat.fsEnhanced app11Chat.fsBasic loadAnyOk =
      (some vsDemo, some "basic") ∧
    (clearChat8 app8Start = { app8Start with messages := [] } ∧
      clearChat11 app11Chat = { app11Chat with messages := [] } ∧
      processUploaded11 app11Chat (some (vsDemo, 1)) qaDemo "upload.pdf" =
        { app11Chat with
          chain := some chainOkAnswer
          retriever := some retr11Empty
          qa_system_loaded := true
          uploaded_file_name := some "upload.pdf"
          messages := [] } ∧
      loadExisting11 app11Chat loadAnyOk qaDemo =
        { app11Chat with
          chain := some chainOkAnswer
          retriever := some retr11Empty
          qa_system_loaded := true
          uploaded_file_name := some ("Existing (" ++ "basic" ++ ")") } ∧
      loadQA8 app8Start (some (chainOkAnswer, retr8Empty)) =
        { app8Start with
          chain := some chainOkAnswer
          retriever := some retr8Empty
          qa_system_loaded := true }) :=
  ⟨rfl, rfl, claim_C6 app8Start app11Chat vsDemo 1 "upload.pdf" "basic"
    chainOkAnswer retr8Empty chainOkAnswer retr11Empty qaDemo loadAnyOk rfl rfl⟩

/-- Claim C7: a missing required input — the prerequisite
`extracted_text.txt` for the embedding script, or the API key for the
Q&A script — halts the run immediately with a descriptive user-facing
message and with none of the later pipeline steps performed: no chunks,
no index build or save, no database load, no generation call. -/
theorem claim_C7 (file apiKey : Option String) (embedOk faissOk saveOk : Bool)
    (questions : List String) (hf : file = none) (hk : apiKey = none) :
    step4_run file embedOk faissOk saveOk =
      ⟨some 1, ["❌ Error: extracted_text.txt not found!",
        "   Run step2_extract_all.py first!"], none, false, false⟩ ∧
    step5b_run apiKey questions =
      ⟨some 1, ["❌ No API key found in .env file!", "Add this line to your .env file:",
        "GROQ_API_KEY=your_key_here"], false, 0⟩ := by
  subst hf hk
  exact ⟨rfl, rfl⟩

/-- Instance of claim C7: both inputs missing, with questions queued. -/
theorem claim_C7_witness :
    (none : Option String) = none ∧
    (step4_run none true true true =
      ⟨some 1, ["❌ Error: extracted_text.txt not found!",
        "   Run step2_extract_all.py first!"], none, false, false⟩ ∧
    step5b_run none ["What is this about?"] =
      ⟨some 1, ["❌ No API key found in .env file!", "Add this line to your .env file:",
        "GROQ_API_KEY=your_key_here"], false, 0⟩) :=
  ⟨rfl, claim_C7 none none true true true ["What is this about?"] rfl rfl⟩

/-- Claim C8: in every state with no Q&A system loaded, neither
submitting a chat question nor clicking a sample question invokes the
generation service, and the main view presents a message telling the
user to load a document first (in the enhanced app the sample button
additionally warns). -/
theorem claim_C8 (s8 : App8) (s11 : App11) (q : String) (oq : Option String)
    (h8 : s8.qa_system_loaded = false) (h11 : s11.qa_system_loaded = false) :
    mainView8 s8 oq =
      (s8, ⟨["👈 Click **Load Q&A System** in the sidebar to start!"], [], false⟩) ∧
    (sampleClick8 s8 q).2.llmCalled = false ∧
    mainView11 s11 oq =
      (s11, ⟨["👈 Upload a PDF or load the existing document from the sidebar to start!"],
        [], false⟩) ∧
    sampleClick11 s11 q = (s11, ⟨[], ["⚠️ Please load a document first!"], false⟩) := by
  refine ⟨?_, rfl, ?_, ?_⟩
  · simp [mainView8, h8]
  · simp [mainView11, h11]
  · simp [sampleClick11, h11]

/-- Instance of claim C8: fresh sessions, with a question entered. -/
theorem claim_C8_witness :
    app8Start.qa_system_loaded = false ∧
    app11Start.qa_system_loaded = false ∧
    (mainView8 app8Start (some "What is this about?") =
      (app8Start, ⟨["👈 Click **Load Q&A System** in the sidebar to start!"], [], false⟩) ∧
    (sampleClick8 app8Start "What is this about?").2.llmCalled = false ∧
    mainView11 app11Start (some "What is this about?") =
      (app11Start,
        ⟨["👈 Upload a PDF or load the existing document from the sidebar to start!"],
          [], false⟩) ∧
    sampleClick11 app11Start "What is this about?" =
      (app11Start, ⟨[], ["⚠️ Please load a document first!"], false⟩)) :=
  ⟨rfl, rfl, claim_C8 app8Start app11Start "What is this about?"
    (some "What is this about?") rfl rfl⟩

/-- Claim C9: for every non-empty chat history the export produces a
plain-text transcript: the header followed, for each message in order,
by the rendered role ("You"/"Assistant") with the message content, and
for each assistant message carrying sources a citation list numbered
consecutively from 1 with each entry's page and type. -/
theorem claim_C9 (now : String) (docName : Option String) (msgs : List Msg11)
    (h : msgs ≠ []) :
    export_chat_history now docName msgs =
      some (exportHeader now docName ++ strJoin (msgs.map transcriptEntry)) := by
  unfold export_chat_history
  rw [if_neg (by simpa using h)]
  rw [foldl_append_eq, renderMsg11_eq]

/-- Instance of claim C9: a two-turn history whose assistant turn cites
two sources. -/
theorem claim_C9_witness :
    ([⟨Role.user, "What is this about?", none⟩,
      ⟨Role.assistant, "It is a test.", some [⟨"2", "text", "snippet one"⟩,
        ⟨"3", "table", "snippet two"⟩]⟩] : List Msg11) ≠ [] ∧
    export_chat_history "2025-01-01 12:00:00" (some "doc.pdf")
      [⟨Role.user, "What is this about?", none⟩,
        ⟨Role.assistant, "It is a test.", some [⟨"2", "text", "snippet one"⟩,
          ⟨"3", "table", "snippet two"⟩]⟩] =
      some (exportHeader "2025-01-01 12:00:00" (some "doc.pdf") ++
        strJoin ([⟨Role.user, "What is this about?", none⟩,
          ⟨Role.assistant, "It is a test.", some [⟨"2", "text", "snippet one"⟩,
            ⟨"3", "table", "snippet two"⟩]⟩].map transcriptEntry)) :=
  ⟨by decide, claim_C9 "2025-01-01 12:00:00" (some "doc.pdf")
    [⟨Role.user, "What is this about?", none⟩,
      ⟨Role.assistant, "It is a test.", some [⟨"2", "text", "snippet one"⟩,
        ⟨"3", "table", "snippet two"⟩]⟩] (by decide)⟩

/-- Claim C10: loading an existing persisted index prefers the enhanced
directory: it returns the enhanced store tagged "enhanced" whenever that
directory exists and loads, the basic store tagged "basic" only when the
enhanced directory is absent and the basic one exists and loads, and
`(None, None)` when neither directory exists or loading raises. -/
theorem claim_C10 (enh basic : Bool) (loadLocal : String → Except String VStore)
    (vs : VStore) (e : String) :
    (enh = true → loadLocal "faiss_index_enhanced" = Except.ok vs →
      load_existing_vectorstore enh basic loadLocal = (some vs, some "enhanced")) ∧
    (enh = false → basic = true → loadLocal "faiss_index" = Except.ok vs →
      load_existing_vectorstore enh basic loadLocal = (some vs, some "basic")) ∧
    (enh = false → basic = false →
      load_existing_vectorstore enh basic loadLocal = (none, none)) ∧
    (enh = true → loadLocal "faiss_index_enhanced" = Except.error e →
      load_existing_vectorstore enh basic loadLocal = (none, none)) ∧
    (enh = false → basic = true → loadLocal "faiss_index" = Except.error e →
      load_existing_vectorstore enh basic loadLocal = (none, none)) := by
  refine ⟨?_, ?_, ?_, ?_, ?_⟩
  · rintro rfl hok
    simp [load_existing_vectorstore, hok]
  · rintro rfl rfl hok
    simp [load_existing_vectorstore, hok]
  · rintro rfl rfl
    simp [load_existing_vectorstore]
  · rintro rfl herr
    simp [load_existing_vectorstore, herr]
  · rintro rfl rfl herr
    simp [load_existing_vectorstore, herr]

/-- Instance of claim C10: both directories present, loading succeeds —
the enhanced store wins. -/
theorem claim_C10_witness :
    (true = true → loadAnyOk "faiss_index_enhanced" = Except.ok vsDemo →
      load_existing_vectorstore true true loadAnyOk = (some vsDemo, some "enhanced")) ∧
    (true = false → true = true → loadAnyOk "faiss_index" = Except.ok vsDemo →
      load_existing_vectorstore true true loadAnyOk = (some vsDemo, some "basic")) ∧
    (true = false → true = false →
      load_existing_vectorstore true true loadAnyOk = (none, none)) ∧
    (true = true → loadAnyOk "faiss_index_enhanced" = Except.error "corrupt" →
      load_existing_vectorstore true true loadAnyOk = (none, none)) ∧
    (true = false → true = true → loadAnyOk "faiss_index" = Except.error "corrupt" →
      load_existing_vectorstore true true loadAnyOk = (none, none)) :=
  claim_C10 true true loadAnyOk vsDemo "corrupt"
